import Mathlib

/-!
Verification of the driver-process supervisor in `tests/e2e/wdio.conf.ts`
(MCP-Mux/mcp-mux).

The supervisor consists of two hooks:

* `onPrepare` spawns the external `tauri-driver` binary and returns a promise
  that is raced between three sources of settlement: a stdout chunk containing
  the readiness marker `"Listening on"` (resolve), a process `error` event
  (reject with the error), and a 30000 ms timer (reject with
  `Error('tauri-driver startup timeout')`). The `stderr` handler only logs.
  There is no `exit` handler, no `clearTimeout`, and no listener removal.

* `onComplete` kills the stored child-process handle if one is present and
  clears the module-level `tauriDriver` variable.

We embed the event-driven part as a step function over an explicit promise
state: a trace is the list of event-loop reactions delivered to the handlers
registered by `onPrepare`, in the order the (single-threaded) event loop runs
them. JavaScript promise semantics — the first `resolve`/`reject` call wins
and later calls are inert — is embedded in `settlePromise`. The module-level
handle manipulation of `onPrepare`/`onComplete` is embedded separately as
`SupervisorModel`.
-/

/-- JavaScript `String.prototype.includes`: `pat` occurs contiguously in `s`. -/
def jsIncludes (s pat : String) : Bool :=
  decide (pat.data <:+: s.data)

/-- The readiness marker tested by the stdout handler in `onPrepare`
(`output.includes('Listening on')`). -/
def readyMarker : String := "Listening on"

/-- Message of the error the 30000 ms timer rejects with
(`new Error('tauri-driver startup timeout')`). -/
def timeoutMessage : String := "tauri-driver startup timeout"

/-- An event-loop reaction delivered to the handlers registered by
`onPrepare`: a stdout `data` chunk, a stderr `data` chunk, a process-level
`error` event, a process exit (for which `onPrepare` registers no handler),
or the firing of the `setTimeout` armed at entry. -/
inductive Event where
  | stdoutData (chunk : String)
  | stderrData (chunk : String)
  | errorEvent (err : String)
  | exitEvent (code : Int)
  | timerFire
deriving DecidableEq, Repr

/-- A settled outcome of the promise returned by `onPrepare`: resolved on the
readiness marker, rejected with the `error`-event payload, or rejected with
the timeout error. -/
inductive Settled where
  | resolvedReady
  | rejectedError (err : String)
  | rejectedTimeout (msg : String)
deriving DecidableEq, Repr

/-- State of one `onPrepare` promise race: the settled outcome (if any), the
console log lines emitted so far, and the number of `resolve`/`reject`
invocations made so far (each handler invocation that reaches a
`resolve()`/`reject()` call counts, whether or not the promise was still
pending). -/
structure RaceState where
  settled : Option Settled
  log : List String
  settleAttempts : Nat
deriving DecidableEq, Repr

/-- The promise state at entry of `onPrepare`: pending, nothing logged. -/
def initialRaceState : RaceState := ⟨none, [], 0⟩

/-- A `resolve`/`reject` call on the promise: JavaScript promises keep their
first settlement, so an already-settled promise is unchanged; the invocation
itself is counted either way. -/
def settlePromise (st : RaceState) (o : Settled) : RaceState :=
  { st with
    settled := some (st.settled.getD o)
    settleAttempts := st.settleAttempts + 1 }

/-- One event-loop reaction, exactly as the handlers in `onPrepare` are
written:

* stdout `data`: if the chunk contains the marker, log
  `'[tauri-driver] Started'` and call `resolve()`; otherwise do nothing.
* stderr `data`: log `'[tauri-driver] ' + chunk`; nothing else.
* `error`: log the failure and call `reject(err)`.
* process exit: no handler is registered, so nothing happens.
* timer fire: call `reject(new Error('tauri-driver startup timeout'))`. -/
def handleEvent (st : RaceState) (e : Event) : RaceState :=
  match e with
  | .stdoutData chunk =>
      if jsIncludes chunk readyMarker then
        settlePromise
          { st with log := st.log ++ ["[tauri-driver] Started"] }
          .resolvedReady
      else st
  | .stderrData chunk =>
      { st with log := st.log ++ ["[tauri-driver] " ++ chunk] }
  | .errorEvent err =>
      settlePromise
        { st with log := st.log ++ ["[tauri-driver] Failed to start: " ++ err] }
        (.rejectedError err)
  | .exitEvent _ => st
  | .timerFire => settlePromise st (.rejectedTimeout timeoutMessage)

/-- Run one `onPrepare` race over a trace of event-loop reactions. -/
def runEvents (tr : List Event) : RaceState :=
  tr.foldl handleEvent initialRaceState

/-- The settlement effect of one event, as a function of the current
settlement alone (log and attempt counter do not feed back into it). -/
def settledStep (a : Option Settled) : Event → Option Settled
  | .stdoutData chunk =>
      if jsIncludes chunk readyMarker then some (a.getD .resolvedReady) else a
  | .stderrData _ => a
  | .errorEvent err => some (a.getD (.rejectedError err))
  | .exitEvent _ => a
  | .timerFire => some (a.getD (.rejectedTimeout timeoutMessage))

/-- Events that can settle the promise: a marker-bearing stdout chunk, an
`error` event, or the timer. -/
def isSettlingEvent : Event → Bool
  | .stdoutData chunk => jsIncludes chunk readyMarker
  | .stderrData _ => false
  | .errorEvent _ => true
  | .exitEvent _ => false
  | .timerFire => true

/-- Stderr `data` events. -/
def isStderrEvent : Event → Bool
  | .stderrData _ => true
  | _ => false

/-- Process-level `error` events. -/
def isErrorEvent : Event → Bool
  | .errorEvent _ => true
  | _ => false

/-- A trace with its stderr `data` events removed. -/
def eraseStderr (tr : List Event) : List Event :=
  tr.filter (fun e => !isStderrEvent e)

/-- Module-level supervisor state of `wdio.conf.ts`: the `tauriDriver`
variable (the stored child-process handle, identified here by a spawn serial
number), the number of `spawn('tauri-driver', ...)` calls made so far, and the
serial numbers whose handles have received `kill()`. -/
structure SupervisorModel where
  tauriDriver : Option Nat
  spawnCount : Nat
  killed : List Nat
deriving DecidableEq, Repr

/-- Module load: `let tauriDriver: ChildProcess | null = null`, no spawns. -/
def initialSupervisor : SupervisorModel := ⟨none, 0, []⟩

/-- The synchronous prefix of `onPrepare`: it unconditionally calls `spawn`
and stores the new handle in `tauriDriver`, overwriting whatever was there.
There is no guard against an earlier, still-stored handle. -/
def onPrepareSpawn (s : SupervisorModel) : SupervisorModel :=
  { s with
    tauriDriver := some s.spawnCount
    spawnCount := s.spawnCount + 1 }

/-- `onComplete`: `if (tauriDriver) { tauriDriver.kill(); tauriDriver = null; }`.
Embedded as a total function — the hook body cannot throw (`kill()` on a dead
process returns `false` rather than throwing). -/
def onComplete (s : SupervisorModel) : SupervisorModel :=
  match s.tauriDriver with
  | some pid => { s with tauriDriver := none, killed := s.killed ++ [pid] }
  | none => s

/-- Spawned processes not yet killed. In a scenario where no spawned process
exits of its own accord, these are exactly the live OS child processes. -/
def alivePids (s : SupervisorModel) : List Nat :=
  (List.range s.spawnCount).filter (fun p => !List.elem p s.killed)

-- Sanity checks on concrete traces (kept as anonymous examples).
example : (runEvents [Event.stdoutData "Listening on 127.0.0.1:4444"]).settled
    = some Settled.resolvedReady := by decide
example : (runEvents [Event.stderrData "port in use", Event.exitEvent 1]).settled
    = none := by decide
example : (runEvents [Event.timerFire]).settled
    = some (Settled.rejectedTimeout timeoutMessage) := by decide

/-- The settlement component of one reaction depends only on the current
settlement and the event. -/
theorem handleEvent_settled (st : RaceState) (e : Event) :
    (handleEvent st e).settled = settledStep st.settled e := by
  cases e with
  | stdoutData chunk =>
      simp only [handleEvent, settledStep]
      split <;> rfl
  | stderrData chunk => rfl
  | errorEvent err => rfl
  | exitEvent code => rfl
  | timerFire => rfl

/-- Settlement over a whole trace factors through `settledStep`. -/
theorem foldl_handleEvent_settled (tr : List Event) (st : RaceState) :
    (tr.foldl handleEvent st).settled = tr.foldl settledStep st.settled := by
  induction tr generalizing st with
  | nil => rfl
  | cons e tr ih => simp only [List.foldl_cons, ih, handleEvent_settled]

/-- A settled promise stays settled at the same outcome through any event. -/
theorem settledStep_some (o : Settled) (e : Event) :
    settledStep (some o) e = some o := by
  cases e <;> simp [settledStep]

/-- A settled promise stays settled at the same outcome through any trace. -/
theorem foldl_settledStep_some (tr : List Event) (o : Settled) :
    tr.foldl settledStep (some o) = some o := by
  induction tr with
  | nil => rfl
  | cons e tr ih => simp only [List.foldl_cons, settledStep_some, ih]

/-- Once the race has settled, later reactions do not change the outcome. -/
theorem runEvents_settled_persists (tr post : List Event) (o : Settled)
    (h : (runEvents tr).settled = some o) :
    (runEvents (tr ++ post)).settled = some o := by
  unfold runEvents at h ⊢
  rw [List.foldl_append, foldl_handleEvent_settled, h, foldl_settledStep_some]

/-- Events that are not settling events leave the settlement unchanged. -/
theorem settledStep_nonsettling (a : Option Settled) (e : Event)
    (h : isSettlingEvent e = false) : settledStep a e = a := by
  cases e with
  | stdoutData chunk =>
      simp only [isSettlingEvent] at h
      simp [settledStep, h]
  | stderrData _ => rfl
  | errorEvent _ => simp [isSettlingEvent] at h
  | exitEvent _ => rfl
  | timerFire => simp [isSettlingEvent] at h

/-- A trace of non-settling events leaves the settlement unchanged. -/
theorem foldl_settledStep_nonsettling (tr : List Event) (a : Option Settled)
    (h : ∀ e ∈ tr, isSettlingEvent e = false) :
    tr.foldl settledStep a = a := by
  induction tr generalizing a with
  | nil => rfl
  | cons e tr ih =>
      simp only [List.foldl_cons]
      rw [settledStep_nonsettling a e (h e (List.mem_cons_self e tr))]
      exact ih a (fun x hx => h x (List.mem_cons_of_mem e hx))

/-- Settlement is pending or already resolved-ready. -/
def ReadyOrNone (a : Option Settled) : Prop :=
  a = none ∨ a = some Settled.resolvedReady

/-- Any event other than the timer and an `error` event preserves
pending-or-resolved-ready settlement. -/
theorem settledStep_readyOrNone (a : Option Settled) (e : Event)
    (ht : e ≠ Event.timerFire) (he : isErrorEvent e = false)
    (h : ReadyOrNone a) : ReadyOrNone (settledStep a e) := by
  cases e with
  | stdoutData chunk =>
      simp only [settledStep]
      split
      · rcases h with h | h <;> subst h <;> exact Or.inr rfl
      · exact h
  | stderrData _ => exact h
  | errorEvent s => simp [isErrorEvent] at he
  | exitEvent _ => exact h
  | timerFire => exact absurd rfl ht

/-- A trace without timer fires and `error` events preserves
pending-or-resolved-ready settlement. -/
theorem foldl_settledStep_readyOrNone (tr : List Event) (a : Option Settled)
    (hpre : ∀ e ∈ tr, e ≠ Event.timerFire ∧ isErrorEvent e = false)
    (h : ReadyOrNone a) : ReadyOrNone (tr.foldl settledStep a) := by
  induction tr generalizing a with
  | nil => exact h
  | cons e tr ih =>
      simp only [List.foldl_cons]
      refine ih _ (fun x hx => hpre x (List.mem_cons_of_mem e hx)) ?_
      exact settledStep_readyOrNone a e (hpre e (List.mem_cons_self e tr)).1
        (hpre e (List.mem_cons_self e tr)).2 h

/-- A marker-bearing stdout chunk resolves a pending-or-resolved-ready
promise to resolved-ready. -/
theorem settledStep_marker (a : Option Settled) (c : String)
    (hm : jsIncludes c readyMarker = true) (h : ReadyOrNone a) :
    settledStep a (Event.stdoutData c) = some Settled.resolvedReady := by
  rcases h with h | h <;> subst h <;> simp [settledStep, hm]

/-- Stderr reactions are invisible to settlement: erasing them from a trace
does not change how the settlement evolves. -/
theorem eraseStderr_foldl_settledStep (tr : List Event) (a : Option Settled) :
    (eraseStderr tr).foldl settledStep a = tr.foldl settledStep a := by
  induction tr generalizing a with
  | nil => rfl
  | cons e tr ih =>
      cases e with
      | stderrData s =>
          simp only [eraseStderr, List.filter_cons, isStderrEvent, Bool.not_true,
            Bool.false_eq_true, if_false, List.foldl_cons]
          exact (ih a).trans rfl
      | stdoutData c =>
          simp only [eraseStderr, List.filter_cons, isStderrEvent, Bool.not_false,
            if_true, List.foldl_cons]
          exact ih _
      | errorEvent s =>
          simp only [eraseStderr, List.filter_cons, isStderrEvent, Bool.not_false,
            if_true, List.foldl_cons]
          exact ih _
      | exitEvent c =>
          simp only [eraseStderr, List.filter_cons, isStderrEvent, Bool.not_false,
            if_true, List.foldl_cons]
          exact ih _
      | timerFire =>
          simp only [eraseStderr, List.filter_cons, isStderrEvent, Bool.not_false,
            if_true, List.foldl_cons]
          exact ih _

/-- C1: for every execution of `onPrepare` in which some stdout chunk
containing the marker `"Listening on"` arrives before the timeout fires and
before any process `error` event, the returned promise resolves (Ready). -/
theorem c1_marker_resolves (pre post : List Event) (c : String)
    (hm : jsIncludes c readyMarker = true)
    (hpre : ∀ e ∈ pre, e ≠ Event.timerFire ∧ isErrorEvent e = false) :
    (runEvents (pre ++ Event.stdoutData c :: post)).settled
      = some Settled.resolvedReady := by
  have hready : ReadyOrNone (List.foldl settledStep none pre) :=
    foldl_settledStep_readyOrNone pre none hpre (Or.inl rfl)
  have h1 : (runEvents (pre ++ [Event.stdoutData c])).settled
      = some Settled.resolvedReady := by
    unfold runEvents
    rw [foldl_handleEvent_settled, List.foldl_append]
    show settledStep (List.foldl settledStep initialRaceState.settled pre)
      (Event.stdoutData c) = some Settled.resolvedReady
    exact settledStep_marker _ c hm hready
  have h2 := runEvents_settled_persists (pre ++ [Event.stdoutData c]) post
    Settled.resolvedReady h1
  simpa using h2

/-- Witness for C1 at a concrete trace: a stderr chunk arrives first, then the
marker line, then the (stray) timer. -/
theorem c1_marker_resolves_witness :
    jsIncludes "Listening on 127.0.0.1:4444" readyMarker = true ∧
    (runEvents ([Event.stderrData "warming up"]
        ++ Event.stdoutData "Listening on 127.0.0.1:4444" :: [Event.timerFire])).settled
      = some Settled.resolvedReady :=
  ⟨by decide,
    c1_marker_resolves [Event.stderrData "warming up"] [Event.timerFire]
      "Listening on 127.0.0.1:4444" (by decide) (by decide)⟩

/-- C2: if no marker-bearing stdout chunk and no `error` event occurs before
the 30000 ms timer fires, the promise rejects with the timeout error
(`Error('tauri-driver startup timeout')`) at the timer fire. `onPrepare` arms
exactly one timer, so in a well-formed trace no timer fire precedes the one
at the deadline; the hypothesis says nothing settling happens before it. -/
theorem c2_timeout_rejects (pre post : List Event)
    (hpre : ∀ e ∈ pre, isSettlingEvent e = false) :
    (runEvents (pre ++ Event.timerFire :: post)).settled
      = some (Settled.rejectedTimeout timeoutMessage) := by
  have h1 : (runEvents (pre ++ [Event.timerFire])).settled
      = some (Settled.rejectedTimeout timeoutMessage) := by
    unfold runEvents
    rw [foldl_handleEvent_settled, List.foldl_append]
    show settledStep (List.foldl settledStep initialRaceState.settled pre)
      Event.timerFire = some (Settled.rejectedTimeout timeoutMessage)
    rw [foldl_settledStep_nonsettling pre _ hpre]
    rfl
  have h2 := runEvents_settled_persists (pre ++ [Event.timerFire]) post _ h1
  simpa using h2

/-- Witness for C2 at a concrete trace: stderr noise and an early exit, then
the timer fires; a marker arriving after the deadline does not change the
rejection. -/
theorem c2_timeout_rejects_witness :
    (∀ e ∈ ([Event.stderrData "port in use", Event.exitEvent 1] : List Event),
      isSettlingEvent e = false) ∧
    (runEvents ([Event.stderrData "port in use", Event.exitEvent 1]
        ++ Event.timerFire :: [Event.stdoutData "Listening on 127.0.0.1:4444"])).settled
      = some (Settled.rejectedTimeout timeoutMessage) :=
  ⟨by decide,
    c2_timeout_rejects [Event.stderrData "port in use", Event.exitEvent 1]
      [Event.stdoutData "Listening on 127.0.0.1:4444"] (by decide)⟩

/-- C3 counterexample: `onPrepare` registers no `exit` (or `close`) handler,
so a process exit before the marker settles nothing — the promise is still
pending right after the exit, and the eventual rejection is the timeout
error, not a process-exit error (no such error exists in the code, and the
stderr text is only logged, not attached to any rejection). The concrete
input is the spec's own scenario: stderr `"port in use"`, then exit code 1,
marker never seen. -/
theorem c3_no_exit_rejection_counterexample :
    (runEvents [Event.stderrData "port in use", Event.exitEvent 1]).settled = none ∧
    (runEvents [Event.stderrData "port in use", Event.exitEvent 1,
        Event.timerFire]).settled
      = some (Settled.rejectedTimeout timeoutMessage) := by
  decide

/-- C3 amended: if the process exits (any code) before the marker and no
`error` event occurs, the promise stays pending until the 30000 ms timer
fires and then rejects with the timeout error; the stderr text reaches only
the diagnostic log, not the rejection. -/
theorem c3_amended_exit_then_timeout (s : String) (code : Int) :
    (runEvents [Event.stderrData s, Event.exitEvent code]).settled = none ∧
    (runEvents [Event.stderrData s, Event.exitEvent code, Event.timerFire]).settled
      = some (Settled.rejectedTimeout timeoutMessage) ∧
    (runEvents [Event.stderrData s, Event.exitEvent code, Event.timerFire]).log
      = ["[tauri-driver] " ++ s] :=
  ⟨rfl, rfl, rfl⟩

/-- C4 counterexample: `onPrepare` has no re-entrancy guard — a second call
without an intervening `onComplete` spawns a second OS process (two spawns in
total, both alive), instead of rejecting with an `AlreadyStartedError`. -/
theorem c4_double_start_counterexample :
    (onPrepareSpawn (onPrepareSpawn initialSupervisor)).spawnCount = 2 ∧
    alivePids (onPrepareSpawn (onPrepareSpawn initialSupervisor)) = [0, 1] := by
  decide

/-- C4 amended: a second `onPrepare` without `onComplete` is not rejected; it
spawns one more process and overwrites the stored handle, so two processes
can be alive at once, and a subsequent `onComplete` kills only the most
recently stored one, leaking the first. -/
theorem c4_amended_second_start_spawns (s : SupervisorModel) :
    (onPrepareSpawn s).spawnCount = s.spawnCount + 1 ∧
    (onPrepareSpawn s).tauriDriver = some s.spawnCount ∧
    (onComplete (onPrepareSpawn (onPrepareSpawn initialSupervisor))).killed = [1] ∧
    alivePids (onComplete (onPrepareSpawn (onPrepareSpawn initialSupervisor))) = [0] :=
  ⟨rfl, rfl, by decide, by decide⟩

/-- C5: once the promise returned by `onPrepare` has settled, no later
reaction — a further marker chunk, the timer fire, or a process `error`
event — changes the outcome observed by the caller. -/
theorem c5_outcome_final (tr post : List Event) (o : Settled)
    (h : (runEvents tr).settled = some o) :
    (runEvents (tr ++ post)).settled = some o :=
  runEvents_settled_persists tr post o h

/-- Witness for C5 at a concrete trace: after the marker resolves the
promise, a timer fire, an `error` event and a second marker chunk leave the
outcome untouched. -/
theorem c5_outcome_final_witness :
    (runEvents [Event.stdoutData "Listening on 127.0.0.1:4444"]).settled
      = some Settled.resolvedReady ∧
    (runEvents ([Event.stdoutData "Listening on 127.0.0.1:4444"]
        ++ [Event.timerFire, Event.errorEvent "boom",
            Event.stdoutData "Listening on 127.0.0.1:4445"])).settled
      = some Settled.resolvedReady :=
  ⟨by decide,
    c5_outcome_final [Event.stdoutData "Listening on 127.0.0.1:4444"]
      [Event.timerFire, Event.errorEvent "boom",
        Event.stdoutData "Listening on 127.0.0.1:4445"]
      Settled.resolvedReady (by decide)⟩

/-- C6: `onComplete` is idempotent and total (embedded as a total function —
the body cannot throw): from any supervisor state it leaves no stored handle,
a repeat call is a no-op (in particular it performs no further kill), it
issues a kill for the stored handle when one is present, and it is a complete
no-op when none is. -/
theorem c6_stop_idempotent (s : SupervisorModel) :
    (onComplete s).tauriDriver = none ∧
    onComplete (onComplete s) = onComplete s ∧
    (∀ pid, s.tauriDriver = some pid → (onComplete s).killed = s.killed ++ [pid]) ∧
    (s.tauriDriver = none → onComplete s = s) := by
  rcases s with ⟨td, sc, kl⟩
  cases td with
  | none =>
      refine ⟨rfl, rfl, ?_, fun _ => rfl⟩
      intro pid h
      exact Option.noConfusion h
  | some pid =>
      refine ⟨rfl, rfl, ?_, ?_⟩
      · intro p hp
        obtain rfl : pid = p := Option.some.inj hp
        rfl
      · intro h
        exact Option.noConfusion h

/-- Witness for C6 at a concrete state holding a live handle. -/
theorem c6_stop_idempotent_witness :
    (onComplete ⟨some 5, 6, []⟩).tauriDriver = none ∧
    onComplete (onComplete ⟨some 5, 6, []⟩) = onComplete ⟨some 5, 6, []⟩ ∧
    (onComplete ⟨some 5, 6, []⟩).killed = [5] :=
  ⟨(c6_stop_idempotent ⟨some 5, 6, []⟩).1,
    (c6_stop_idempotent ⟨some 5, 6, []⟩).2.1,
    (c6_stop_idempotent ⟨some 5, 6, []⟩).2.2.1 5 rfl⟩

/-- C7 counterexample: the timer is never cleared (`clearTimeout` is absent)
and no listener is ever detached. After the marker resolves the race, the
timer callback still runs its `reject` (one more settle attempt), and the
stdout listener still reacts to a second marker chunk (a second
`'[tauri-driver] Started'` log line). -/
theorem c7_no_cleanup_counterexample :
    (runEvents [Event.stdoutData "Listening on 127.0.0.1:4444"]).settled
      = some Settled.resolvedReady ∧
    (runEvents [Event.stdoutData "Listening on 127.0.0.1:4444",
        Event.timerFire]).settleAttempts
      = (runEvents [Event.stdoutData "Listening on 127.0.0.1:4444"]).settleAttempts
        + 1 ∧
    (runEvents [Event.stdoutData "Listening on 127.0.0.1:4444",
        Event.stdoutData "Listening on 127.0.0.1:4445"]).log
      = ["[tauri-driver] Started", "[tauri-driver] Started"] := by
  decide

/-- C7 amended: the timer and the listeners stay armed after the race
settles — a later timer fire still runs its `reject` and a later marker chunk
still logs — but the settled outcome is not changed by either, because the
promise keeps its first settlement. -/
theorem c7_amended_stray_events_inert (tr : List Event) (o : Settled) (c : String)
    (h : (runEvents tr).settled = some o) (hc : jsIncludes c readyMarker = true) :
    (runEvents (tr ++ [Event.timerFire])).settled = some o ∧
    (runEvents (tr ++ [Event.timerFire])).settleAttempts
      = (runEvents tr).settleAttempts + 1 ∧
    (runEvents (tr ++ [Event.stdoutData c])).settled = some o ∧
    (runEvents (tr ++ [Event.stdoutData c])).log
      = (runEvents tr).log ++ ["[tauri-driver] Started"] := by
  refine ⟨runEvents_settled_persists tr [Event.timerFire] o h, ?_,
    runEvents_settled_persists tr [Event.stdoutData c] o h, ?_⟩
  · unfold runEvents
    rw [List.foldl_append]
    rfl
  · unfold runEvents
    rw [List.foldl_append]
    show (handleEvent (List.foldl handleEvent initialRaceState tr)
      (Event.stdoutData c)).log = _
    simp [handleEvent, hc, settlePromise]

/-- Witness for C7 amended at a concrete settled trace. -/
theorem c7_amended_stray_events_inert_witness :
    (runEvents [Event.stdoutData "Listening on 127.0.0.1:4444"]).settled
      = some Settled.resolvedReady ∧
    jsIncludes "Listening on 127.0.0.1:4445" readyMarker = true ∧
    (runEvents ([Event.stdoutData "Listening on 127.0.0.1:4444"]
        ++ [Event.timerFire])).settled = some Settled.resolvedReady ∧
    (runEvents ([Event.stdoutData "Listening on 127.0.0.1:4444"]
        ++ [Event.stdoutData "Listening on 127.0.0.1:4445"])).log
      = (runEvents [Event.stdoutData "Listening on 127.0.0.1:4444"]).log
        ++ ["[tauri-driver] Started"] :=
  ⟨by decide, by decide,
    (c7_amended_stray_events_inert [Event.stdoutData "Listening on 127.0.0.1:4444"]
      Settled.resolvedReady "Listening on 127.0.0.1:4445" (by decide) (by decide)).1,
    (c7_amended_stray_events_inert [Event.stdoutData "Listening on 127.0.0.1:4444"]
      Settled.resolvedReady "Listening on 127.0.0.1:4445" (by decide) (by decide)).2.2.2⟩

/-- C8 counterexample: a stdout chunk without the marker is not forwarded to
the diagnostic sink — the stdout handler's `else` branch does nothing, so the
log stays empty. -/
theorem c8_nonmarker_not_logged_counterexample :
    jsIncludes "some non-marker output" readyMarker = false ∧
    (runEvents [Event.stdoutData "some non-marker output"]).log = [] := by
  decide

/-- C8 amended: a stdout chunk without the marker is ignored entirely — it is
not logged and leaves the whole race state (settlement, log, attempt count)
unchanged. -/
theorem c8_amended_nonmarker_ignored (st : RaceState) (c : String)
    (h : jsIncludes c readyMarker = false) :
    handleEvent st (Event.stdoutData c) = st := by
  simp [handleEvent, h]

/-- Witness for C8 amended at a concrete non-marker chunk. -/
theorem c8_amended_nonmarker_ignored_witness :
    jsIncludes "hello" readyMarker = false ∧
    handleEvent initialRaceState (Event.stdoutData "hello") = initialRaceState :=
  ⟨by decide, c8_amended_nonmarker_ignored initialRaceState "hello" (by decide)⟩

/-- C9: every stderr chunk is forwarded to the diagnostic sink
(`console.error('[tauri-driver]', chunk)`), and stderr content never
influences the outcome: two traces that agree after erasing stderr events
settle identically. -/
theorem c9_stderr_noninterference :
    (∀ st s, (handleEvent st (Event.stderrData s)).log
      = st.log ++ ["[tauri-driver] " ++ s]) ∧
    ∀ tr1 tr2, eraseStderr tr1 = eraseStderr tr2 →
      (runEvents tr1).settled = (runEvents tr2).settled := by
  refine ⟨fun st s => rfl, fun tr1 tr2 h => ?_⟩
  unfold runEvents
  rw [foldl_handleEvent_settled, foldl_handleEvent_settled,
    ← eraseStderr_foldl_settledStep tr1, ← eraseStderr_foldl_settledStep tr2, h]

/-- Witness for C9 at two concrete traces differing only in stderr chunks. -/
theorem c9_stderr_noninterference_witness :
    eraseStderr [Event.stderrData "port in use", Event.timerFire]
      = eraseStderr [Event.timerFire, Event.stderrData "noise",
          Event.stderrData "more noise"] ∧
    (runEvents [Event.stderrData "port in use", Event.timerFire]).settled
      = (runEvents [Event.timerFire, Event.stderrData "noise",
          Event.stderrData "more noise"]).settled :=
  ⟨by decide,
    c9_stderr_noninterference.2 [Event.stderrData "port in use", Event.timerFire]
      [Event.timerFire, Event.stderrData "noise", Event.stderrData "more noise"]
      (by decide)⟩

/-- C10: marker matching is per-chunk (`output.includes(...)` is applied to
each `data` chunk separately), so a marker split across two chunks is never
detected: the chunks `"Listening "` and `"on 127.0.0.1:4444"` each lack the
marker although their concatenation contains it, and the race ends in the
timeout rejection. -/
theorem c10_per_chunk_matching :
    jsIncludes "Listening " readyMarker = false ∧
    jsIncludes "on 127.0.0.1:4444" readyMarker = false ∧
    jsIncludes ("Listening " ++ "on 127.0.0.1:4444") readyMarker = true ∧
    (runEvents [Event.stdoutData "Listening ", Event.stdoutData "on 127.0.0.1:4444",
        Event.timerFire]).settled = some (Settled.rejectedTimeout timeoutMessage) := by
  decide
